import Mathlib

/-
Shallow embedding of the two Ansible modules of this repository,
library/mongo_atlas_cluster.py and library/mongo_atlas_user.py.

Modelling conventions:
  - Python/JSON values are the inductive type PyVal; Python dicts are
    association lists with unique keys (Python dicts cannot repeat a key).
  - The modules target Ansible 2.2 / Python 2, so the builtin map returns a
    list; it is modelled with List.map / List.mapM.  Calling map over None
    raises TypeError, and calling .get on a value without that attribute
    raises AttributeError; both are modelled as PyErr results.
  - Each remote HTTP call is recorded as an AtlasCall; the JSON body the
    remote side would answer with is supplied up front in a Remote
    structure, so a whole reconciliation pass (the main function of a
    module) is the pure function of its parameters and of those responses.
  - The atlas_username / atlas_api_key parameters feed only the HTTP digest
    authentication of the transport and have no observable effect on the
    decision logic, so they are not carried in the model.
  - module.exit_json / module.fail_json / an uncaught Python exception are
    the Outcome type; str(x) interpolation into a fail message is modelled
    by carrying the literal message part and the value x separately.
-/

inductive PyVal where
  | none
  | str (s : String)
  | int (n : Int)
  | bool (b : Bool)
  | list (xs : List PyVal)
  | dict (entries : List (String × PyVal))

abbrev Dict := List (String × PyVal)

/-- Lookup of a key in a Python dict (first occurrence; dicts have unique keys). -/
def dictLookup : Dict → String → Option PyVal
  | [], _ => Option.none
  | (k, v) :: rest, q => if k == q then some v else dictLookup rest q

/-- Python d[q] = v : replace the value of an existing key, else append the key. -/
def dictSet : Dict → String → PyVal → Dict
  | [], q, v => [(q, v)]
  | (k, w) :: rest, q, v => if k == q then (k, v) :: rest else (k, w) :: dictSet rest q v

def hasKey (d : Dict) (q : String) : Bool :=
  (dictLookup d q).isSome

/-- Python d.get(q) is None : true when the key is absent or its value is null. -/
def getIsNone (d : Dict) (q : String) : Bool :=
  match dictLookup d q with
  | Option.none => true
  | some PyVal.none => true
  | some _ => false

/-- Python x is not None for an optional lookup result. -/
def isNotNoneV (o : Option PyVal) : Bool :=
  match o with
  | some PyVal.none => false
  | some _ => true
  | Option.none => false

/-- Python d.get(error) == 404. -/
def errIs404 (d : Dict) : Bool :=
  match dictLookup d "error" with
  | some (PyVal.int 404) => true
  | _ => false

mutual

/-- Python == on JSON-ish values: dicts compare unordered (same size and every
key of the left dict bound to an equal value in the right dict, which on
unique-key dicts is Python dict equality); lists compare pointwise. -/
def pyEq : PyVal → PyVal → Bool
  | PyVal.none, PyVal.none => true
  | PyVal.str a, PyVal.str b => a == b
  | PyVal.int a, PyVal.int b => a == b
  | PyVal.bool a, PyVal.bool b => a == b
  | PyVal.list xs, PyVal.list ys => pyEqList xs ys
  | PyVal.dict a, PyVal.dict b => a.length == b.length && pyEqEntries a b
  | _, _ => false

def pyEqList : List PyVal → List PyVal → Bool
  | [], [] => true
  | x :: xs, y :: ys => pyEq x y && pyEqList xs ys
  | _, _ => false

def pyEqEntries : List (String × PyVal) → Dict → Bool
  | [], _ => true
  | (k, v) :: rest, b =>
      (match dictLookup b k with
       | some w => pyEq v w
       | Option.none => false) && pyEqEntries rest b

end

/-- An uncaught Python exception aborting the module process. -/
inductive PyErr where
  | unboundLocal
  | typeError
  | attributeError
  | keyError

/-- One remote HTTP request issued against the Atlas API. -/
inductive AtlasCall where
  | get (url : String)
  | post (url : String) (payload : Dict)
  | patch (url : String) (payload : Dict)
  | delete (url : String)

/-- Is the call a write (create, update or delete), as opposed to a fetch. -/
def isWrite (c : AtlasCall) : Bool :=
  match c with
  | AtlasCall.get _ => false
  | _ => true

def writeCalls (t : List AtlasCall) : List AtlasCall :=
  t.filter isWrite

/-- How a module run ends: exit_json, fail_json, an uncaught exception, or
falling off the end of main without reporting (unreachable for validated
state choices). -/
inductive Outcome where
  | exit (changed : PyVal) (resource : PyVal)
  | fail (msg : String) (response : Option PyVal) (subject : Option PyVal)
  | pyErr (e : PyErr)
  | noExit

def pyOfOpt (o : Option String) : PyVal :=
  match o with
  | some s => PyVal.str s
  | Option.none => PyVal.none

def atlasBase : String := "https://cloud.mongodb.com/api/atlas/v1.0/groups/"

def clusterUrl (g n : String) : String := atlasBase ++ g ++ "/clusters/" ++ n

def clustersUrl (g : String) : String := atlasBase ++ g ++ "/clusters"

def userUrl (g u : String) : String := atlasBase ++ g ++ "/databaseUsers/admin/" ++ u

def usersUrl (g : String) : String := atlasBase ++ g ++ "/databaseUsers"

/-
---------------------------------------------------------------------------
library/mongo_atlas_cluster.py
---------------------------------------------------------------------------
-/

/-- The module parameters after AnsibleModule argument parsing
(atlas credentials omitted: transport only). -/
structure ClusterParams where
  atlas_group_id : String
  name : String
  num_shards : Option Int
  replication_factor : Option Int
  instance_size : Option String
  disk_iops : Option Int
  encrypt : Option Bool
  backup_enabled : Option Bool
  region_name : Option String
  state : String
  disk_size : Option Int

/-- The JSON bodies the remote API answers with, one per endpoint. -/
structure ClusterRemote where
  getResp : Dict
  postResp : Dict
  deleteResp : Dict

/-- One conditional payload entry: if x is not None then payload[k] = x. -/
def optEntry (q : String) (v : Option PyVal) : Dict :=
  match v with
  | some x => [(q, x)]
  | Option.none => []

/-- The JSON body built by create_cluster (lines 21-41): unset optional
fields are skipped, provider fields are nested under providerSettings with
the fixed providerName AWS. -/
def create_cluster_payload (name : String) (num_shards replication_factor : Option Int)
    (instance_size : Option String) (disk_iops : Option Int)
    (encrypt backup_enabled : Option Bool) (region_name : Option String)
    (disk_size : Option Int) : Dict :=
  [("name", PyVal.str name)]
  ++ optEntry "backupEnabled" (backup_enabled.map PyVal.bool)
  ++ optEntry "numShards" (num_shards.map PyVal.int)
  ++ optEntry "replicationFactor" (replication_factor.map PyVal.int)
  ++ optEntry "diskSizeGB" (disk_size.map PyVal.int)
  ++ [("providerSettings", PyVal.dict
       ([("providerName", PyVal.str "AWS")]
        ++ optEntry "regionName" (region_name.map PyVal.str)
        ++ optEntry "instanceSizeName" (instance_size.map PyVal.str)
        ++ optEntry "diskIOPS" (disk_iops.map PyVal.int)
        ++ optEntry "encryptEBSVolume" (encrypt.map PyVal.bool)))]

/-- create_cluster: POST the payload to the clusters collection URL and hand
back the response JSON with the URL recorded under the url key. -/
def create_cluster (atlas_group_id name : String) (num_shards replication_factor : Option Int)
    (instance_size : Option String) (disk_iops : Option Int)
    (encrypt backup_enabled : Option Bool) (region_name : Option String)
    (disk_size : Option Int) (r : ClusterRemote) : AtlasCall × Dict :=
  (AtlasCall.post (clustersUrl atlas_group_id)
    (create_cluster_payload name num_shards replication_factor instance_size disk_iops
      encrypt backup_enabled region_name disk_size),
   dictSet r.postResp "url" (PyVal.str (clustersUrl atlas_group_id)))

/-- delete_cluster: DELETE the cluster URL; the response JSON is returned as is. -/
def delete_cluster (atlas_group_id name : String) (r : ClusterRemote) : AtlasCall × Dict :=
  (AtlasCall.delete (clusterUrl atlas_group_id name), r.deleteResp)

/-- get_cluster: GET the cluster URL and add the URL under the url key. -/
def get_cluster (atlas_group_id name : String) (r : ClusterRemote) : AtlasCall × Dict :=
  (AtlasCall.get (clusterUrl atlas_group_id name),
   dictSet r.getResp "url" (PyVal.str (clusterUrl atlas_group_id name)))

/-- The chain of state checks of main (lines 110-145), after subject_state
has been derived from the fetch. -/
def clusterDispatch (p : ClusterParams) (r : ClusterRemote) (subject_cluster : Dict)
    (subject_state : String) : List AtlasCall × Outcome :=
  if p.state == "absent" && subject_state == "absent" then
    ([], Outcome.exit (PyVal.bool false) (PyVal.str p.name))
  else if p.state == "present" && subject_state == "absent" then
    let cc := create_cluster p.atlas_group_id p.name p.num_shards p.replication_factor
      p.instance_size p.disk_iops p.encrypt p.backup_enabled p.region_name p.disk_size r
    if isNotNoneV (dictLookup cc.2 "error") then
      ([cc.1], Outcome.fail "Could not create cluster" (some (PyVal.dict cc.2)) Option.none)
    else
      ([cc.1], Outcome.exit (PyVal.bool true) (PyVal.dict cc.2))
  else if p.state == "absent" && subject_state == "present" then
    let dc := delete_cluster p.atlas_group_id p.name r
    if isNotNoneV (dictLookup dc.2 "error") then
      ([dc.1], Outcome.fail "Could not delete cluster" (some (PyVal.dict dc.2)) Option.none)
    else
      ([dc.1], Outcome.exit (PyVal.bool true) (PyVal.dict dc.2))
  else if p.state == "present" && subject_state == "present" then
    ([], Outcome.exit (PyVal.bool false) (PyVal.dict subject_cluster))
  else
    ([], Outcome.noExit)

/-- main of mongo_atlas_cluster.py as a pure function of the parameters and
the remote responses: the value is the ordered trace of HTTP calls plus the
outcome.  Lines 105-108 assign subject_state only for a missing error code
or for 404; any other error code leaves subject_state unbound and line 110
raises UnboundLocalError. -/
def clusterMain (p : ClusterParams) (r : ClusterRemote) : List AtlasCall × Outcome :=
  let gc := get_cluster p.atlas_group_id p.name r
  if getIsNone gc.2 "error" then
    let d := clusterDispatch p r gc.2 "present"
    (gc.1 :: d.1, d.2)
  else if errIs404 gc.2 then
    let d := clusterDispatch p r gc.2 "absent"
    (gc.1 :: d.1, d.2)
  else
    ([gc.1], Outcome.pyErr PyErr.unboundLocal)

/-
---------------------------------------------------------------------------
library/mongo_atlas_user.py
---------------------------------------------------------------------------
-/

structure UserParams where
  atlas_group_id : String
  user : String
  password : Option String
  state : String
  update_password : String
  roles : Option (List PyVal)

structure UserRemote where
  getResp : Dict
  postResp : Dict
  patchResp : Dict
  deleteResp : Dict

/-- map_roles (lines 81-102): a bare string becomes a roleName on the admin
database; a dict carrying both db and role (not None) becomes the canonical
pair; any other dict passes through unchanged.  A value without a .get
attribute raises AttributeError, modelled as Option.none; the inner
unreachable arm covers the KeyError the guard already excludes. -/
def map_roles (role : PyVal) : Option PyVal :=
  match role with
  | PyVal.str s => some (PyVal.dict [("roleName", PyVal.str s), ("databaseName", PyVal.str "admin")])
  | PyVal.dict d =>
      if isNotNoneV (dictLookup d "db") && isNotNoneV (dictLookup d "role") then
        match dictLookup d "role", dictLookup d "db" with
        | some rv, some dv => some (PyVal.dict [("roleName", rv), ("databaseName", dv)])
        | _, _ => Option.none
      else
        some (PyVal.dict d)
  | _ => Option.none

/-- Python 2 map(map_roles, roles): TypeError on roles None, AttributeError
if some element has no .get attribute. -/
def mapRolesList (roles : Option (List PyVal)) : Except PyErr (List PyVal) :=
  match roles with
  | Option.none => Except.error PyErr.typeError
  | some rs =>
      match rs.mapM map_roles with
      | some l => Except.ok l
      | Option.none => Except.error PyErr.attributeError

/-- get_user: GET the user URL and add the URL under the url key. -/
def get_user (atlas_group_id user : String) (r : UserRemote) : AtlasCall × Dict :=
  (AtlasCall.get (userUrl atlas_group_id user),
   dictSet r.getResp "url" (PyVal.str (userUrl atlas_group_id user)))

/-- The JSON body built by create_user (lines 128-132): the password key is
always present, a null when no password was supplied. -/
def create_user_payload (atlas_group_id username : String) (roles_with_dbs : List PyVal)
    (password : Option String) : Dict :=
  [("databaseName", PyVal.str "admin"),
   ("groupId", PyVal.str atlas_group_id),
   ("username", PyVal.str username),
   ("roles", PyVal.list roles_with_dbs),
   ("password", pyOfOpt password)]

/-- create_user: normalize the roles, POST the payload, hand back the
response JSON with the URL added. -/
def create_user (atlas_group_id user : String) (roles : Option (List PyVal))
    (password : Option String) (r : UserRemote) : Except PyErr (AtlasCall × Dict) :=
  match mapRolesList roles with
  | Except.error e => Except.error e
  | Except.ok roles_with_dbs =>
      Except.ok
        (AtlasCall.post (usersUrl atlas_group_id)
          (create_user_payload atlas_group_id user roles_with_dbs password),
         dictSet r.postResp "url" (PyVal.str (usersUrl atlas_group_id)))

/-- delete_user: DELETE the user URL and add the URL to the response JSON. -/
def delete_user (atlas_group_id user : String) (r : UserRemote) : AtlasCall × Dict :=
  (AtlasCall.delete (userUrl atlas_group_id user),
   dictSet r.deleteResp "url" (PyVal.str (userUrl atlas_group_id user)))

/-- The JSON body built by sync_user (lines 159-165): always the normalized
roles; the password key only when a password argument was passed. -/
def sync_user_payload (atlas_group_id username : String) (roles_with_dbs : List PyVal)
    (password : Option String) : Dict :=
  [("databaseName", PyVal.str "admin"),
   ("groupId", PyVal.str atlas_group_id),
   ("username", PyVal.str username),
   ("roles", PyVal.list roles_with_dbs)]
  ++ optEntry "password" (password.map PyVal.str)

/-- sync_user (lines 153-178): normalize the roles, compare against the
roles of the fetched user (KeyError if that key is missing); when they are
equal and no password argument was passed, no call and changed false;
otherwise PATCH, then record changed true and the URL in the response. -/
def sync_user (atlas_group_id user : String) (http_response : Dict)
    (roles : Option (List PyVal)) (password : Option String) (r : UserRemote) :
    Except PyErr (List AtlasCall × Dict) :=
  match mapRolesList roles with
  | Except.error e => Except.error e
  | Except.ok roles_with_dbs =>
      match dictLookup http_response "roles" with
      | Option.none => Except.error PyErr.keyError
      | some obs =>
          if pyEq obs (PyVal.list roles_with_dbs) && password.isNone then
            Except.ok ([], [("changed", PyVal.bool false)])
          else
            Except.ok
              ([AtlasCall.patch (userUrl atlas_group_id user)
                 (sync_user_payload atlas_group_id user roles_with_dbs password)],
               dictSet (dictSet r.patchResp "changed" (PyVal.bool true)) "url"
                 (PyVal.str (userUrl atlas_group_id user)))

/-- The chain of state checks of main (lines 220-272), after subject_state
has been derived from the fetch; branch order follows the source. -/
def userDispatch (p : UserParams) (r : UserRemote) (subject_response : Dict)
    (subject_state : String) : List AtlasCall × Outcome :=
  if p.state == "present" && subject_state == "absent" then
    match create_user p.atlas_group_id p.user p.roles p.password r with
    | Except.error e => ([], Outcome.pyErr e)
    | Except.ok cu =>
        if getIsNone cu.2 "error" then
          ([cu.1], Outcome.exit (PyVal.bool true) (PyVal.dict cu.2))
        else
          ([cu.1], Outcome.fail "Failed to create user:\n" (some (PyVal.dict cu.2)) Option.none)
  else if p.state == "absent" && subject_state == "absent" then
    ([], Outcome.exit (PyVal.bool false) (PyVal.str p.user))
  else if p.state == "absent" && subject_state == "present" then
    let du := delete_user p.atlas_group_id p.user r
    if getIsNone du.2 "error" then
      ([du.1], Outcome.exit (PyVal.bool true) (PyVal.dict du.2))
    else
      ([du.1], Outcome.fail "Failed to delete user:\n" (some (PyVal.dict du.2)) Option.none)
  else if p.state == "present" && subject_state == "present" then
    let sr :=
      if p.update_password == "always" && p.password.isSome then
        sync_user p.atlas_group_id p.user subject_response p.roles p.password r
      else
        sync_user p.atlas_group_id p.user subject_response p.roles Option.none r
    match sr with
    | Except.error e => ([], Outcome.pyErr e)
    | Except.ok cr =>
        if getIsNone cr.2 "error" then
          match dictLookup cr.2 "changed" with
          | some c => (cr.1, Outcome.exit c (PyVal.dict subject_response))
          | Option.none => (cr.1, Outcome.pyErr PyErr.keyError)
        else
          (cr.1, Outcome.fail "Failed to update user:\n" (some (PyVal.dict cr.2))
            (some (PyVal.dict subject_response)))
  else
    ([], Outcome.noExit)

/-- main of mongo_atlas_user.py as a pure function of the parameters and the
remote responses (lines 206-272); a fetch error other than 404 is reported
through fail_json with the stringified response. -/
def userMain (p : UserParams) (r : UserRemote) : List AtlasCall × Outcome :=
  let gu := get_user p.atlas_group_id p.user r
  if getIsNone gu.2 "error" then
    let d := userDispatch p r gu.2 "present"
    (gu.1 :: d.1, d.2)
  else if errIs404 gu.2 then
    let d := userDispatch p r gu.2 "absent"
    (gu.1 :: d.1, d.2)
  else
    ([gu.1], Outcome.fail "" (some (PyVal.dict gu.2)) Option.none)


/-- No value anywhere in the JSON object, recursively through nested
objects, is an explicit null. -/
def dictNoNull : Dict → Bool
  | [] => true
  | (_, PyVal.none) :: _ => false
  | (_, PyVal.dict d) :: rest => dictNoNull d && dictNoNull rest
  | _ :: rest => dictNoNull rest

/-
---------------------------------------------------------------------------
Concrete parameter and remote-response fixtures used by witnesses and
counterexamples
---------------------------------------------------------------------------
-/

def cpFix : ClusterParams :=
  { atlas_group_id := "g", name := "c1", num_shards := Option.none,
    replication_factor := Option.none, instance_size := Option.none,
    disk_iops := Option.none, encrypt := Option.none, backup_enabled := Option.none,
    region_name := Option.none, state := "present", disk_size := Option.none }

def crNotFound : ClusterRemote :=
  { getResp := [("error", PyVal.int 404)], postResp := [], deleteResp := [] }

def crFound : ClusterRemote :=
  { getResp := [("ok", PyVal.bool true)], postResp := [], deleteResp := [] }

def crServerErr : ClusterRemote :=
  { getResp := [("error", PyVal.int 500)], postResp := [], deleteResp := [] }

def upFix : UserParams :=
  { atlas_group_id := "g", user := "u1", password := Option.none, state := "present",
    update_password := "always", roles := some [PyVal.str "read"] }

def urNotFound : UserRemote :=
  { getResp := [("error", PyVal.int 404)], postResp := [], patchResp := [], deleteResp := [] }

def urFoundRead : UserRemote :=
  { getResp := [("roles", PyVal.list
      [PyVal.dict [("databaseName", PyVal.str "admin"), ("roleName", PyVal.str "read")]])],
    postResp := [], patchResp := [], deleteResp := [] }

def urFoundWrite : UserRemote :=
  { getResp := [("roles", PyVal.list
      [PyVal.dict [("roleName", PyVal.str "write"), ("databaseName", PyVal.str "admin")]])],
    postResp := [], patchResp := [("marker", PyVal.bool true)], deleteResp := [] }

def urServerErr : UserRemote :=
  { getResp := [("error", PyVal.int 500)], postResp := [], patchResp := [], deleteResp := [] }

/-
---------------------------------------------------------------------------
Basic lemmas about the dictionary operations
---------------------------------------------------------------------------
-/

theorem dictLookup_dictSet_ne (d : Dict) (k q : String) (v : PyVal)
    (h : (k == q) = false) : dictLookup (dictSet d k v) q = dictLookup d q := by
  induction d with
  | nil => simp [dictSet, dictLookup, h]
  | cons a rest ih =>
      obtain ⟨ak, av⟩ := a
      by_cases hak : (ak == k) = true
      · have hk : ak = k := by simpa using hak
        subst hk
        simp [dictSet, dictLookup, h]
      · have hak' : (ak == k) = false := by simpa using hak
        simp only [dictSet, hak', if_false, dictLookup]
        by_cases haq : (ak == q) = true
        · simp [haq]
        · have haq' : (ak == q) = false := by simpa using haq
          simp [haq', ih]

theorem dictLookup_dictSet_self (d : Dict) (k : String) (v : PyVal) :
    dictLookup (dictSet d k v) k = some v := by
  induction d with
  | nil => simp [dictSet, dictLookup]
  | cons a rest ih =>
      obtain ⟨ak, av⟩ := a
      by_cases hak : (ak == k) = true
      · have hk : ak = k := by simpa using hak
        subst hk
        simp [dictSet, dictLookup]
      · have hak' : (ak == k) = false := by simpa using hak
        simp [dictSet, hak', dictLookup, ih]

theorem getIsNone_dictSet_ne (d : Dict) (k q : String) (v : PyVal)
    (h : (k == q) = false) : getIsNone (dictSet d k v) q = getIsNone d q := by
  unfold getIsNone
  rw [dictLookup_dictSet_ne d k q v h]

theorem errIs404_dictSet_ne (d : Dict) (k : String) (v : PyVal)
    (h : (k == "error") = false) : errIs404 (dictSet d k v) = errIs404 d := by
  unfold errIs404
  rw [dictLookup_dictSet_ne d k "error" v h]

theorem errIs404_getIsNone (d : Dict) (h : errIs404 d = true) :
    getIsNone d "error" = false := by
  unfold errIs404 at h
  unfold getIsNone
  rcases hl : dictLookup d "error" with _ | w
  · rw [hl] at h
    simp at h
  · rw [hl] at h
    cases w <;> simp_all

theorem isNotNoneV_some (o : Option PyVal) (h : isNotNoneV o = true) : ∃ v, o = some v := by
  cases o with
  | none => simp [isNotNoneV] at h
  | some v => exact ⟨v, rfl⟩

theorem isNotNoneV_false_of_getIsNone (d : Dict) (q : String)
    (h : getIsNone d q = true) : isNotNoneV (dictLookup d q) = false := by
  unfold getIsNone at h
  unfold isNotNoneV
  rcases hl : dictLookup d q with _ | w
  · rfl
  · rw [hl] at h
    cases w <;> simp_all

/-
---------------------------------------------------------------------------
Structural lemmas: presence branching of the two main functions
---------------------------------------------------------------------------
-/

theorem clusterMain_present (p : ClusterParams) (r : ClusterRemote)
    (h : getIsNone r.getResp "error" = true) :
    clusterMain p r =
      (AtlasCall.get (clusterUrl p.atlas_group_id p.name) ::
        (clusterDispatch p r
          (dictSet r.getResp "url" (PyVal.str (clusterUrl p.atlas_group_id p.name))) "present").1,
       (clusterDispatch p r
          (dictSet r.getResp "url" (PyVal.str (clusterUrl p.atlas_group_id p.name))) "present").2) := by
  have h1 : getIsNone (dictSet r.getResp "url" (PyVal.str (clusterUrl p.atlas_group_id p.name))) "error" = true := by
    rw [getIsNone_dictSet_ne _ _ _ _ (by decide)]
    exact h
  simp only [clusterMain, get_cluster]
  rw [if_pos h1]

theorem clusterMain_absent (p : ClusterParams) (r : ClusterRemote)
    (h : errIs404 r.getResp = true) :
    clusterMain p r =
      (AtlasCall.get (clusterUrl p.atlas_group_id p.name) ::
        (clusterDispatch p r
          (dictSet r.getResp "url" (PyVal.str (clusterUrl p.atlas_group_id p.name))) "absent").1,
       (clusterDispatch p r
          (dictSet r.getResp "url" (PyVal.str (clusterUrl p.atlas_group_id p.name))) "absent").2) := by
  have h2 : errIs404 (dictSet r.getResp "url" (PyVal.str (clusterUrl p.atlas_group_id p.name))) = true := by
    rw [errIs404_dictSet_ne _ _ _ (by decide)]
    exact h
  have h1 : getIsNone (dictSet r.getResp "url" (PyVal.str (clusterUrl p.atlas_group_id p.name))) "error" = false :=
    errIs404_getIsNone _ h2
  simp only [clusterMain, get_cluster]
  rw [if_neg (by simp [h1]), if_pos h2]

theorem clusterMain_badFetch (p : ClusterParams) (r : ClusterRemote)
    (h1 : getIsNone r.getResp "error" = false) (h2 : errIs404 r.getResp = false) :
    clusterMain p r =
      ([AtlasCall.get (clusterUrl p.atlas_group_id p.name)], Outcome.pyErr PyErr.unboundLocal) := by
  have h1' : getIsNone (dictSet r.getResp "url" (PyVal.str (clusterUrl p.atlas_group_id p.name))) "error" = false := by
    rw [getIsNone_dictSet_ne _ _ _ _ (by decide)]
    exact h1
  have h2' : errIs404 (dictSet r.getResp "url" (PyVal.str (clusterUrl p.atlas_group_id p.name))) = false := by
    rw [errIs404_dictSet_ne _ _ _ (by decide)]
    exact h2
  simp only [clusterMain, get_cluster]
  rw [if_neg (by simp [h1']), if_neg (by simp [h2'])]

theorem userMain_present (p : UserParams) (r : UserRemote)
    (h : getIsNone r.getResp "error" = true) :
    userMain p r =
      (AtlasCall.get (userUrl p.atlas_group_id p.user) ::
        (userDispatch p r
          (dictSet r.getResp "url" (PyVal.str (userUrl p.atlas_group_id p.user))) "present").1,
       (userDispatch p r
          (dictSet r.getResp "url" (PyVal.str (userUrl p.atlas_group_id p.user))) "present").2) := by
  have h1 : getIsNone (dictSet r.getResp "url" (PyVal.str (userUrl p.atlas_group_id p.user))) "error" = true := by
    rw [getIsNone_dictSet_ne _ _ _ _ (by decide)]
    exact h
  simp only [userMain, get_user]
  rw [if_pos h1]

theorem userMain_absent (p : UserParams) (r : UserRemote)
    (h : errIs404 r.getResp = true) :
    userMain p r =
      (AtlasCall.get (userUrl p.atlas_group_id p.user) ::
        (userDispatch p r
          (dictSet r.getResp "url" (PyVal.str (userUrl p.atlas_group_id p.user))) "absent").1,
       (userDispatch p r
          (dictSet r.getResp "url" (PyVal.str (userUrl p.atlas_group_id p.user))) "absent").2) := by
  have h2 : errIs404 (dictSet r.getResp "url" (PyVal.str (userUrl p.atlas_group_id p.user))) = true := by
    rw [errIs404_dictSet_ne _ _ _ (by decide)]
    exact h
  have h1 : getIsNone (dictSet r.getResp "url" (PyVal.str (userUrl p.atlas_group_id p.user))) "error" = false :=
    errIs404_getIsNone _ h2
  simp only [userMain, get_user]
  rw [if_neg (by simp [h1]), if_pos h2]

theorem userMain_badFetch (p : UserParams) (r : UserRemote)
    (h1 : getIsNone r.getResp "error" = false) (h2 : errIs404 r.getResp = false) :
    userMain p r =
      ([AtlasCall.get (userUrl p.atlas_group_id p.user)],
       Outcome.fail "" (some (PyVal.dict (dictSet r.getResp "url"
         (PyVal.str (userUrl p.atlas_group_id p.user))))) Option.none) := by
  have h1' : getIsNone (dictSet r.getResp "url" (PyVal.str (userUrl p.atlas_group_id p.user))) "error" = false := by
    rw [getIsNone_dictSet_ne _ _ _ _ (by decide)]
    exact h1
  have h2' : errIs404 (dictSet r.getResp "url" (PyVal.str (userUrl p.atlas_group_id p.user))) = false := by
    rw [errIs404_dictSet_ne _ _ _ (by decide)]
    exact h2
  simp only [userMain, get_user]
  rw [if_neg (by simp [h1']), if_neg (by simp [h2'])]


/-
---------------------------------------------------------------------------
Cell lemmas: one per entry of the convergence tables
---------------------------------------------------------------------------
-/

theorem clusterDispatch_absent_absent (p : ClusterParams) (r : ClusterRemote) (subj : Dict)
    (hs : p.state = "absent") :
    clusterDispatch p r subj "absent" =
      ([], Outcome.exit (PyVal.bool false) (PyVal.str p.name)) := by
  simp [clusterDispatch, hs]

theorem clusterDispatch_absent_present (p : ClusterParams) (r : ClusterRemote) (subj : Dict)
    (hs : p.state = "absent") :
    (clusterDispatch p r subj "present").1 = [AtlasCall.delete (clusterUrl p.atlas_group_id p.name)]
    ∧ (isNotNoneV (dictLookup r.deleteResp "error") = false →
        (clusterDispatch p r subj "present").2 =
          Outcome.exit (PyVal.bool true) (PyVal.dict r.deleteResp)) := by
  constructor
  · simp only [clusterDispatch, hs, delete_cluster]
    simp
    split <;> rfl
  · intro h
    simp [clusterDispatch, hs, delete_cluster, h]

theorem clusterDispatch_present_absent (p : ClusterParams) (r : ClusterRemote) (subj : Dict)
    (hs : p.state = "present") :
    (clusterDispatch p r subj "absent").1 =
      [AtlasCall.post (clustersUrl p.atlas_group_id)
        (create_cluster_payload p.name p.num_shards p.replication_factor p.instance_size
          p.disk_iops p.encrypt p.backup_enabled p.region_name p.disk_size)]
    ∧ (isNotNoneV (dictLookup (dictSet r.postResp "url" (PyVal.str (clustersUrl p.atlas_group_id))) "error") = false →
        (clusterDispatch p r subj "absent").2 =
          Outcome.exit (PyVal.bool true)
            (PyVal.dict (dictSet r.postResp "url" (PyVal.str (clustersUrl p.atlas_group_id))))) := by
  constructor
  · simp only [clusterDispatch, hs, create_cluster]
    simp
    split <;> rfl
  · intro h
    simp [clusterDispatch, hs, create_cluster, h]

theorem clusterDispatch_present_present (p : ClusterParams) (r : ClusterRemote) (subj : Dict)
    (hs : p.state = "present") :
    clusterDispatch p r subj "present" =
      ([], Outcome.exit (PyVal.bool false) (PyVal.dict subj)) := by
  simp [clusterDispatch, hs]

theorem userDispatch_absent_absent (p : UserParams) (r : UserRemote) (subj : Dict)
    (hs : p.state = "absent") :
    userDispatch p r subj "absent" =
      ([], Outcome.exit (PyVal.bool false) (PyVal.str p.user)) := by
  simp [userDispatch, hs]

theorem userDispatch_absent_present (p : UserParams) (r : UserRemote) (subj : Dict)
    (hs : p.state = "absent") :
    (userDispatch p r subj "present").1 = [AtlasCall.delete (userUrl p.atlas_group_id p.user)]
    ∧ (getIsNone (dictSet r.deleteResp "url" (PyVal.str (userUrl p.atlas_group_id p.user))) "error" = true →
        (userDispatch p r subj "present").2 =
          Outcome.exit (PyVal.bool true)
            (PyVal.dict (dictSet r.deleteResp "url" (PyVal.str (userUrl p.atlas_group_id p.user))))) := by
  constructor
  · simp only [userDispatch, hs, delete_user]
    simp
    split <;> rfl
  · intro h
    simp [userDispatch, hs, delete_user, h]

theorem userDispatch_present_absent (p : UserParams) (r : UserRemote) (subj : Dict)
    (hs : p.state = "present") (rs nrs : List PyVal)
    (hroles : p.roles = some rs) (hnorm : rs.mapM map_roles = some nrs) :
    (userDispatch p r subj "absent").1 =
      [AtlasCall.post (usersUrl p.atlas_group_id)
        (create_user_payload p.atlas_group_id p.user nrs p.password)]
    ∧ (getIsNone (dictSet r.postResp "url" (PyVal.str (usersUrl p.atlas_group_id))) "error" = true →
        (userDispatch p r subj "absent").2 =
          Outcome.exit (PyVal.bool true)
            (PyVal.dict (dictSet r.postResp "url" (PyVal.str (usersUrl p.atlas_group_id))))) := by
  have hm : mapRolesList p.roles = Except.ok nrs := by
    rw [hroles]
    simp only [mapRolesList]
    rw [hnorm]
  constructor
  · simp only [userDispatch, hs, create_user, hm]
    simp
    split <;> rfl
  · intro h
    simp only [userDispatch, hs, create_user, hm]
    simp [h]

theorem sync_user_calls (g u : String) (hr : Dict) (roles : Option (List PyVal))
    (pw : Option String) (r : UserRemote) (cr : List AtlasCall × Dict)
    (h : sync_user g u hr roles pw r = Except.ok cr) :
    cr.1 = [] ∨ ∃ url pl, cr.1 = [AtlasCall.patch url pl] := by
  unfold sync_user at h
  split at h
  · exact Except.noConfusion h
  · split at h
    · exact Except.noConfusion h
    · split at h
      · cases h
        exact Or.inl rfl
      · cases h
        exact Or.inr ⟨_, _, rfl⟩

theorem mapRolesList_ok (roles : Option (List PyVal)) (rs nrs : List PyVal)
    (hroles : roles = some rs) (hnorm : rs.mapM map_roles = some nrs) :
    mapRolesList roles = Except.ok nrs := by
  rw [hroles]
  simp only [mapRolesList]
  rw [hnorm]

theorem userDispatch_present_present_nocall (p : UserParams) (r : UserRemote) (subj : Dict)
    (rs nrs : List PyVal) (obs : PyVal)
    (hs : p.state = "present")
    (hroles : p.roles = some rs) (hnorm : rs.mapM map_roles = some nrs)
    (hobs : dictLookup subj "roles" = some obs)
    (heq : pyEq obs (PyVal.list nrs) = true)
    (hcfalse : (p.update_password == "always" && p.password.isSome) = false) :
    userDispatch p r subj "present" =
      ([], Outcome.exit (PyVal.bool false) (PyVal.dict subj)) := by
  have hm : mapRolesList p.roles = Except.ok nrs := mapRolesList_ok _ _ _ hroles hnorm
  have hsync : sync_user p.atlas_group_id p.user subj p.roles Option.none r =
      Except.ok ([], [("changed", PyVal.bool false)]) := by
    unfold sync_user
    rw [hm]
    simp [hobs, heq]
  simp [userDispatch, hs, hcfalse, hsync, getIsNone, dictLookup]

theorem userDispatch_present_present_update (p : UserParams) (r : UserRemote) (subj : Dict)
    (rs nrs : List PyVal) (obs : PyVal) (epw : Option String)
    (hs : p.state = "present")
    (hroles : p.roles = some rs) (hnorm : rs.mapM map_roles = some nrs)
    (hobs : dictLookup subj "roles" = some obs)
    (hepw : (if (p.update_password == "always" && p.password.isSome) = true
             then p.password else Option.none) = epw)
    (hcond : (pyEq obs (PyVal.list nrs) && epw.isNone) = false) :
    (userDispatch p r subj "present").1 =
      [AtlasCall.patch (userUrl p.atlas_group_id p.user)
        (sync_user_payload p.atlas_group_id p.user nrs epw)]
    ∧ (getIsNone r.patchResp "error" = true →
        (userDispatch p r subj "present").2 =
          Outcome.exit (PyVal.bool true) (PyVal.dict subj)) := by
  have hm : mapRolesList p.roles = Except.ok nrs := mapRolesList_ok _ _ _ hroles hnorm
  subst hepw
  have hgerr : getIsNone (dictSet (dictSet r.patchResp "changed" (PyVal.bool true)) "url"
      (PyVal.str (userUrl p.atlas_group_id p.user))) "error" = getIsNone r.patchResp "error" := by
    rw [getIsNone_dictSet_ne _ _ _ _ (by decide), getIsNone_dictSet_ne _ _ _ _ (by decide)]
  have hgch : dictLookup (dictSet (dictSet r.patchResp "changed" (PyVal.bool true)) "url"
      (PyVal.str (userUrl p.atlas_group_id p.user))) "changed" = some (PyVal.bool true) := by
    rw [dictLookup_dictSet_ne _ _ _ _ (by decide), dictLookup_dictSet_self]
  by_cases hc : (p.update_password == "always" && p.password.isSome) = true
  · rw [if_pos hc] at hcond ⊢
    have hsync : sync_user p.atlas_group_id p.user subj p.roles p.password r =
        Except.ok ([AtlasCall.patch (userUrl p.atlas_group_id p.user)
            (sync_user_payload p.atlas_group_id p.user nrs p.password)],
          dictSet (dictSet r.patchResp "changed" (PyVal.bool true)) "url"
            (PyVal.str (userUrl p.atlas_group_id p.user))) := by
      unfold sync_user
      rw [hm]
      simp [hobs, hcond]
    constructor
    · simp [userDispatch, hs, hc, hsync, hgch]
      split <;> rfl
    · intro herr
      simp [userDispatch, hs, hc, hsync, hgerr, hgch, herr]
  · rw [if_neg hc] at hcond ⊢
    have hpe : pyEq obs (PyVal.list nrs) = false := by simpa using hcond
    have hsync : sync_user p.atlas_group_id p.user subj p.roles Option.none r =
        Except.ok ([AtlasCall.patch (userUrl p.atlas_group_id p.user)
            (sync_user_payload p.atlas_group_id p.user nrs Option.none)],
          dictSet (dictSet r.patchResp "changed" (PyVal.bool true)) "url"
            (PyVal.str (userUrl p.atlas_group_id p.user))) := by
      unfold sync_user
      rw [hm]
      simp [hobs, hpe]
    constructor
    · simp [userDispatch, hs, hc, hsync, hgch]
      split <;> rfl
    · intro herr
      simp [userDispatch, hs, hc, hsync, hgerr, hgch, herr]

theorem clusterDispatch_calls (p : ClusterParams) (r : ClusterRemote) (subj : Dict)
    (st : String) :
    (clusterDispatch p r subj st).1 = []
    ∨ ∃ w, isWrite w = true ∧ (clusterDispatch p r subj st).1 = [w] := by
  simp only [clusterDispatch]
  split
  · exact Or.inl rfl
  · split
    · split
      · exact Or.inr ⟨_, by rfl, rfl⟩
      · exact Or.inr ⟨_, by rfl, rfl⟩
    · split
      · split
        · exact Or.inr ⟨_, by rfl, rfl⟩
        · exact Or.inr ⟨_, by rfl, rfl⟩
      · split
        · exact Or.inl rfl
        · exact Or.inl rfl

theorem create_user_calls (g u : String) (roles : Option (List PyVal)) (pw : Option String)
    (r : UserRemote) (cu : AtlasCall × Dict)
    (h : create_user g u roles pw r = Except.ok cu) :
    ∃ pl, cu.1 = AtlasCall.post (usersUrl g) pl := by
  unfold create_user at h
  split at h
  · exact Except.noConfusion h
  · cases h
    exact ⟨_, rfl⟩

theorem userDispatch_calls (p : UserParams) (r : UserRemote) (subj : Dict) (st : String) :
    (userDispatch p r subj st).1 = []
    ∨ ∃ w, isWrite w = true ∧ (userDispatch p r subj st).1 = [w] := by
  simp only [userDispatch]
  split
  · split
    · exact Or.inl rfl
    · split
      · rename_i cu heq h2
        obtain ⟨pl, hpl⟩ := create_user_calls _ _ _ _ _ _ heq
        exact Or.inr ⟨cu.1, by rw [hpl]; rfl, rfl⟩
      · rename_i cu heq h2
        obtain ⟨pl, hpl⟩ := create_user_calls _ _ _ _ _ _ heq
        exact Or.inr ⟨cu.1, by rw [hpl]; rfl, rfl⟩
  · split
    · exact Or.inl rfl
    · split
      · split
        · exact Or.inr ⟨_, by rfl, rfl⟩
        · exact Or.inr ⟨_, by rfl, rfl⟩
      · split
        · split
          · exact Or.inl rfl
          · rename_i cr h
            have hcalls : cr.1 = [] ∨ ∃ url pl, cr.1 = [AtlasCall.patch url pl] := by
              by_cases hc : (p.update_password == "always" && p.password.isSome) = true
              · rw [if_pos hc] at h
                exact sync_user_calls _ _ _ _ _ _ _ h
              · rw [if_neg hc] at h
                exact sync_user_calls _ _ _ _ _ _ _ h
            rcases hcalls with h0 | ⟨url, pl, h1⟩
            · refine Or.inl ?_
              split
              · split
                · exact h0
                · exact h0
              · exact h0
            · split
              · split
                · exact Or.inr ⟨AtlasCall.patch url pl, rfl, h1⟩
                · exact Or.inr ⟨AtlasCall.patch url pl, rfl, h1⟩
              · exact Or.inr ⟨AtlasCall.patch url pl, rfl, h1⟩
        · exact Or.inl rfl

/-
---------------------------------------------------------------------------
Claim theorems
---------------------------------------------------------------------------
-/

/-- Claim C3: map_roles sends a bare string role r to the canonical pair
with roleName r and databaseName admin, sends a structured grant with both
db and role fields to the corresponding canonical pair, and passes a grant
already in canonical roleName/databaseName form through unchanged. -/
theorem claim_C3 :
    (∀ s : String, map_roles (PyVal.str s) =
       some (PyVal.dict [("roleName", PyVal.str s), ("databaseName", PyVal.str "admin")]))
  ∧ (∀ d rName : String,
       map_roles (PyVal.dict [("db", PyVal.str d), ("role", PyVal.str rName)]) =
       some (PyVal.dict [("roleName", PyVal.str rName), ("databaseName", PyVal.str d)]))
  ∧ (∀ v w : PyVal,
       map_roles (PyVal.dict [("roleName", v), ("databaseName", w)]) =
       some (PyVal.dict [("roleName", v), ("databaseName", w)])) :=
  ⟨fun _ => rfl, fun _ _ => rfl, fun _ _ => rfl⟩

/-- Claim C4: the role normalizer is idempotent: whenever map_roles sends a
grant g to a result (it does not raise), applying map_roles to that result
returns it unchanged. -/
theorem claim_C4 (g g' : PyVal) (h : map_roles g = some g') : map_roles g' = some g' := by
  cases g with
  | none => exact Option.noConfusion h
  | int n => exact Option.noConfusion h
  | bool b => exact Option.noConfusion h
  | list xs => exact Option.noConfusion h
  | str s =>
      simp only [map_roles] at h
      cases h
      rfl
  | dict d =>
      simp only [map_roles] at h
      by_cases hg : (isNotNoneV (dictLookup d "db") && isNotNoneV (dictLookup d "role")) = true
      · rw [if_pos hg] at h
        simp only [Bool.and_eq_true] at hg
        obtain ⟨hdb, hrl⟩ := hg
        have hg : (isNotNoneV (dictLookup d "db") && isNotNoneV (dictLookup d "role")) = true := by
          simp [hdb, hrl]
        obtain ⟨dv, hdv⟩ := isNotNoneV_some _ hdb
        obtain ⟨rv, hrv⟩ := isNotNoneV_some _ hrl
        rw [hdv, hrv] at h
        cases h
        rfl
      · rw [if_neg hg] at h
        cases h
        simp only [map_roles]
        rw [if_neg hg]

/-- Witness for C4: normalizing the bare role readWrite and then normalizing
the result again leaves it unchanged. -/
theorem claim_C4_witness :
    map_roles (PyVal.dict [("roleName", PyVal.str "readWrite"), ("databaseName", PyVal.str "admin")]) =
      some (PyVal.dict [("roleName", PyVal.str "readWrite"), ("databaseName", PyVal.str "admin")]) :=
  claim_C4 (PyVal.str "readWrite") _ rfl

/-- Counterexample to C5 as stated: a user create payload with no password
supplied carries the password key with an explicit null, instead of
omitting it. -/
theorem claim_C5_counterexample :
    dictLookup (create_user_payload "g" "u1"
      [PyVal.dict [("roleName", PyVal.str "read"), ("databaseName", PyVal.str "admin")]]
      Option.none) "password" = some PyVal.none := rfl

/-- Claim C5 as amended: the cluster create payload contains no explicit
null and a spec with only the name set yields exactly the name plus the
fixed AWS provider settings; the user create payload however always carries
the password field, an explicit null when no password was supplied. -/
theorem claim_C5 :
    (∀ n : String, create_cluster_payload n Option.none Option.none Option.none Option.none
       Option.none Option.none Option.none Option.none =
       [("name", PyVal.str n),
        ("providerSettings", PyVal.dict [("providerName", PyVal.str "AWS")])])
  ∧ (∀ (n : String) (ns rf : Option Int) (isz : Option String) (iops : Option Int)
       (enc bak : Option Bool) (region : Option String) (dsz : Option Int),
       dictNoNull (create_cluster_payload n ns rf isz iops enc bak region dsz) = true)
  ∧ (∀ (g u : String) (rwd : List PyVal) (pw : Option String),
       dictLookup (create_user_payload g u rwd pw) "password" = some (pyOfOpt pw)) := by
  refine ⟨fun _ => rfl, ?_, fun _ _ _ _ => rfl⟩
  intro n ns rf isz iops enc bak region dsz
  cases ns <;> cases rf <;> cases isz <;> cases iops <;> cases enc <;> cases bak <;>
    cases region <;> cases dsz <;> simp [create_cluster_payload, optEntry, dictNoNull]

/-- Claim C2 (code-bug evidence): on a fetch response carrying error 500 the
user module fails with the stringified response and issues no write, while
the cluster module never assigns subject_state (lines 105-108 have no else)
and crashes with UnboundLocalError at line 110 instead of failing with the
response; in both cases no write is attempted. -/
theorem claim_C2 :
    clusterMain cpFix crServerErr =
      ([AtlasCall.get (clusterUrl "g" "c1")], Outcome.pyErr PyErr.unboundLocal)
  ∧ userMain upFix urServerErr =
      ([AtlasCall.get (userUrl "g" "u1")],
       Outcome.fail ""
         (some (PyVal.dict [("error", PyVal.int 500), ("url", PyVal.str (userUrl "g" "u1"))]))
         Option.none) :=
  ⟨rfl, rfl⟩

/-- Claim C10: the user module create and update paths require a supplied
roles list: with state present, roles left unset (None) and the user either
observed absent (create path) or observed present (update path), Python 2
map over None raises TypeError before any write is issued. -/
theorem claim_C10 (p : UserParams) (r : UserRemote)
    (hstate : p.state = "present") (hroles : p.roles = Option.none)
    (hobs : getIsNone r.getResp "error" = true ∨ errIs404 r.getResp = true) :
    userMain p r =
      ([AtlasCall.get (userUrl p.atlas_group_id p.user)], Outcome.pyErr PyErr.typeError) := by
  have hsync : ∀ pw, sync_user p.atlas_group_id p.user
      (dictSet r.getResp "url" (PyVal.str (userUrl p.atlas_group_id p.user))) p.roles pw r =
      Except.error PyErr.typeError := by
    intro pw
    unfold sync_user
    rw [hroles]
    rfl
  rcases hobs with h | h
  · rw [userMain_present p r h]
    have hd : userDispatch p r
        (dictSet r.getResp "url" (PyVal.str (userUrl p.atlas_group_id p.user))) "present" =
        ([], Outcome.pyErr PyErr.typeError) := by
      by_cases hc : (p.update_password == "always" && p.password.isSome) = true
      · simp [userDispatch, hstate, hc, hsync]
      · simp [userDispatch, hstate, hc, hsync]
    rw [hd]
  · rw [userMain_absent p r h]
    have hd : userDispatch p r
        (dictSet r.getResp "url" (PyVal.str (userUrl p.atlas_group_id p.user))) "absent" =
        ([], Outcome.pyErr PyErr.typeError) := by
      simp [userDispatch, hstate, create_user, mapRolesList, hroles]
    rw [hd]

/-- Witness for C10: with roles unset and the user observed absent the pass
crashes with TypeError after the fetch, issuing no create. -/
theorem claim_C10_witness :
    userMain { upFix with roles := Option.none } urNotFound =
      ([AtlasCall.get (userUrl "g" "u1")], Outcome.pyErr PyErr.typeError) :=
  claim_C10 _ _ rfl rfl (Or.inr rfl)

/-- Claim C6: with the user desired present and observed present, equal
normalized desired roles (Python list equality against the observed roles)
and no supplied password, the pass issues no write after the fetch and
exits with changed false. -/
theorem claim_C6 (p : UserParams) (r : UserRemote) (rs nrs : List PyVal) (obs : PyVal)
    (hstate : p.state = "present") (hpres : getIsNone r.getResp "error" = true)
    (hroles : p.roles = some rs) (hnorm : rs.mapM map_roles = some nrs)
    (hobs : dictLookup r.getResp "roles" = some obs)
    (heq : pyEq obs (PyVal.list nrs) = true)
    (hpw : p.password = Option.none) :
    userMain p r =
      ([AtlasCall.get (userUrl p.atlas_group_id p.user)],
       Outcome.exit (PyVal.bool false)
         (PyVal.dict (dictSet r.getResp "url" (PyVal.str (userUrl p.atlas_group_id p.user))))) := by
  have hobs2 : dictLookup (dictSet r.getResp "url" (PyVal.str (userUrl p.atlas_group_id p.user)))
      "roles" = some obs := by
    rw [dictLookup_dictSet_ne _ _ _ _ (by decide)]
    exact hobs
  have hcf : (p.update_password == "always" && p.password.isSome) = false := by
    simp [hpw]
  rw [userMain_present p r hpres,
    userDispatch_present_present_nocall p r _ rs nrs obs hstate hroles hnorm hobs2 heq hcf]

/-- Witness for C6: a user whose observed roles already equal the single
normalized desired grant read on admin, with no password: only the fetch is
issued and the module exits changed false. -/
theorem claim_C6_witness :
    userMain upFix urFoundRead =
      ([AtlasCall.get (userUrl "g" "u1")],
       Outcome.exit (PyVal.bool false)
         (PyVal.dict [("roles", PyVal.list
             [PyVal.dict [("databaseName", PyVal.str "admin"), ("roleName", PyVal.str "read")]]),
           ("url", PyVal.str (userUrl "g" "u1"))])) :=
  claim_C6 upFix urFoundRead [PyVal.str "read"]
    [PyVal.dict [("roleName", PyVal.str "read"), ("databaseName", PyVal.str "admin")]]
    (PyVal.list [PyVal.dict [("databaseName", PyVal.str "admin"), ("roleName", PyVal.str "read")]])
    rfl rfl rfl rfl rfl rfl rfl

/-- Claim C7: every update payload the user module sends carries the
normalized desired roles, and carries the password key exactly when a
password was supplied and the policy is always; under any other policy
value, in particular on_create, the password key never appears. -/
theorem claim_C7 (p : UserParams) (r : UserRemote) (rs nrs : List PyVal) (obs : PyVal)
    (hstate : p.state = "present") (hpres : getIsNone r.getResp "error" = true)
    (hroles : p.roles = some rs) (hnorm : rs.mapM map_roles = some nrs)
    (hobs : dictLookup r.getResp "roles" = some obs) :
    ∀ u pl, AtlasCall.patch u pl ∈ (userMain p r).1 →
      dictLookup pl "roles" = some (PyVal.list nrs)
      ∧ hasKey pl "password" = (p.password.isSome && (p.update_password == "always")) := by
  intro u pl hmem
  have hobs2 : dictLookup (dictSet r.getResp "url" (PyVal.str (userUrl p.atlas_group_id p.user)))
      "roles" = some obs := by
    rw [dictLookup_dictSet_ne _ _ _ _ (by decide)]
    exact hobs
  rw [userMain_present p r hpres] at hmem
  by_cases hc : (p.update_password == "always" && p.password.isSome) = true
  · have hpsome : p.password.isSome = true := by
      simp only [Bool.and_eq_true] at hc
      exact hc.2
    have hup : (p.update_password == "always") = true := by
      simp only [Bool.and_eq_true] at hc
      exact hc.1
    have hcond : (pyEq obs (PyVal.list nrs) && p.password.isNone) = false := by
      rcases hp : p.password with _ | pw
      · rw [hp] at hpsome
        simp at hpsome
      · simp
    have hd := userDispatch_present_present_update p r _ rs nrs obs p.password hstate hroles
      hnorm hobs2 (if_pos hc) hcond
    rw [hd.1] at hmem
    simp only [List.mem_cons, List.not_mem_nil, or_false] at hmem
    rcases hmem with h | h
    · exact AtlasCall.noConfusion h
    · obtain ⟨h1, h2⟩ := AtlasCall.patch.inj h
      subst h2
      obtain ⟨pw, hp⟩ := Option.isSome_iff_exists.mp hpsome
      constructor
      · rw [hp]
        rfl
      · rw [hp, hup]
        rfl
  · have hcf : (p.update_password == "always" && p.password.isSome) = false := by
      simpa using hc
    by_cases hpe : pyEq obs (PyVal.list nrs) = true
    · have hd := userDispatch_present_present_nocall p r _ rs nrs obs hstate hroles hnorm
        hobs2 hpe hcf
      rw [hd] at hmem
      simp at hmem
    · have hpe' : pyEq obs (PyVal.list nrs) = false := by
        simpa using hpe
      have hcond : (pyEq obs (PyVal.list nrs) && (Option.none : Option String).isNone) = false := by
        simp [hpe']
      have hd := userDispatch_present_present_update p r _ rs nrs obs Option.none hstate hroles
        hnorm hobs2 (if_neg hc) hcond
      rw [hd.1] at hmem
      simp only [List.mem_cons, List.not_mem_nil, or_false] at hmem
      rcases hmem with h | h
      · exact AtlasCall.noConfusion h
      · obtain ⟨h1, h2⟩ := AtlasCall.patch.inj h
        subst h2
        constructor
        · rfl
        · rw [Bool.and_comm]
          rw [hcf]
          rfl

/-- Witness for C7: with a password supplied under the always policy and
differing roles, the issued update payload carries the normalized roles and
the password key. -/
theorem claim_C7_witness :
    dictLookup (sync_user_payload "g" "u1"
      [PyVal.dict [("roleName", PyVal.str "read"), ("databaseName", PyVal.str "admin")]]
      (some "pw")) "roles" =
        some (PyVal.list
          [PyVal.dict [("roleName", PyVal.str "read"), ("databaseName", PyVal.str "admin")]])
    ∧ hasKey (sync_user_payload "g" "u1"
      [PyVal.dict [("roleName", PyVal.str "read"), ("databaseName", PyVal.str "admin")]]
      (some "pw")) "password" = true :=
  claim_C7 { upFix with password := some "pw" } urFoundWrite [PyVal.str "read"]
    [PyVal.dict [("roleName", PyVal.str "read"), ("databaseName", PyVal.str "admin")]]
    (PyVal.list [PyVal.dict [("roleName", PyVal.str "write"), ("databaseName", PyVal.str "admin")]])
    rfl rfl rfl rfl rfl
    (userUrl "g" "u1")
    (sync_user_payload "g" "u1"
      [PyVal.dict [("roleName", PyVal.str "read"), ("databaseName", PyVal.str "admin")]]
      (some "pw"))
    (List.Mem.tail _ (List.Mem.head _))

/-- Claim C9 as amended: on a successful user present/present pass that
issues an update, the module reports the representation fetched before the
update (subject_response), not the representation resulting from the
update call. -/
theorem claim_C9 (p : UserParams) (r : UserRemote) (rs nrs : List PyVal) (obs : PyVal)
    (hstate : p.state = "present") (hpres : getIsNone r.getResp "error" = true)
    (hroles : p.roles = some rs) (hnorm : rs.mapM map_roles = some nrs)
    (hobs : dictLookup r.getResp "roles" = some obs)
    (hdiff : pyEq obs (PyVal.list nrs) = false)
    (hpatch : getIsNone r.patchResp "error" = true) :
    (∃ u pl, AtlasCall.patch u pl ∈ (userMain p r).1)
    ∧ (userMain p r).2 = Outcome.exit (PyVal.bool true)
        (PyVal.dict (dictSet r.getResp "url" (PyVal.str (userUrl p.atlas_group_id p.user)))) := by
  have hobs2 : dictLookup (dictSet r.getResp "url" (PyVal.str (userUrl p.atlas_group_id p.user)))
      "roles" = some obs := by
    rw [dictLookup_dictSet_ne _ _ _ _ (by decide)]
    exact hobs
  by_cases hc : (p.update_password == "always" && p.password.isSome) = true
  · have hcond : (pyEq obs (PyVal.list nrs) && p.password.isNone) = false := by
      simp [hdiff]
    have hd := userDispatch_present_present_update p r _ rs nrs obs p.password hstate hroles
      hnorm hobs2 (if_pos hc) hcond
    constructor
    · refine ⟨userUrl p.atlas_group_id p.user,
        sync_user_payload p.atlas_group_id p.user nrs p.password, ?_⟩
      rw [userMain_present p r hpres]
      rw [hd.1]
      simp
    · rw [userMain_present p r hpres]
      exact hd.2 hpatch
  · have hcond : (pyEq obs (PyVal.list nrs) && (Option.none : Option String).isNone) = false := by
      simp [hdiff]
    have hd := userDispatch_present_present_update p r _ rs nrs obs Option.none hstate hroles
      hnorm hobs2 (if_neg hc) hcond
    constructor
    · refine ⟨userUrl p.atlas_group_id p.user,
        sync_user_payload p.atlas_group_id p.user nrs Option.none, ?_⟩
      rw [userMain_present p r hpres]
      rw [hd.1]
      simp
    · rw [userMain_present p r hpres]
      exact hd.2 hpatch

/-- Witness for C9 as amended: a pass that issues a successful update
reports changed true together with the fetched pre-update representation. -/
theorem claim_C9_witness :
    (∃ u pl, AtlasCall.patch u pl ∈ (userMain upFix urFoundWrite).1)
    ∧ (userMain upFix urFoundWrite).2 = Outcome.exit (PyVal.bool true)
        (PyVal.dict [("roles", PyVal.list
            [PyVal.dict [("roleName", PyVal.str "write"), ("databaseName", PyVal.str "admin")]]),
          ("url", PyVal.str (userUrl "g" "u1"))]) :=
  claim_C9 upFix urFoundWrite [PyVal.str "read"]
    [PyVal.dict [("roleName", PyVal.str "read"), ("databaseName", PyVal.str "admin")]]
    (PyVal.list [PyVal.dict [("roleName", PyVal.str "write"), ("databaseName", PyVal.str "admin")]])
    rfl rfl rfl rfl rfl rfl rfl

/-- Counterexample to C9 as stated: the pass issues an update whose
resulting representation carries the marker key of the patch response, yet
the module reports the pre-update fetched dict, which has no marker key. -/
theorem claim_C9_counterexample :
    userMain upFix urFoundWrite =
      ([AtlasCall.get (userUrl "g" "u1"),
        AtlasCall.patch (userUrl "g" "u1")
          (sync_user_payload "g" "u1"
            [PyVal.dict [("roleName", PyVal.str "read"), ("databaseName", PyVal.str "admin")]]
            Option.none)],
       Outcome.exit (PyVal.bool true)
         (PyVal.dict [("roles", PyVal.list
             [PyVal.dict [("roleName", PyVal.str "write"), ("databaseName", PyVal.str "admin")]]),
           ("url", PyVal.str (userUrl "g" "u1"))]))
  ∧ sync_user "g" "u1"
      [("roles", PyVal.list
         [PyVal.dict [("roleName", PyVal.str "write"), ("databaseName", PyVal.str "admin")]]),
       ("url", PyVal.str (userUrl "g" "u1"))]
      (some [PyVal.str "read"]) Option.none urFoundWrite =
      Except.ok
        ([AtlasCall.patch (userUrl "g" "u1")
            (sync_user_payload "g" "u1"
              [PyVal.dict [("roleName", PyVal.str "read"), ("databaseName", PyVal.str "admin")]]
              Option.none)],
         [("marker", PyVal.bool true), ("changed", PyVal.bool true),
          ("url", PyVal.str (userUrl "g" "u1"))])
  ∧ dictLookup [("marker", PyVal.bool true), ("changed", PyVal.bool true),
      ("url", PyVal.str (userUrl "g" "u1"))] "marker" = some (PyVal.bool true)
  ∧ dictLookup [("roles", PyVal.list
        [PyVal.dict [("roleName", PyVal.str "write"), ("databaseName", PyVal.str "admin")]]),
      ("url", PyVal.str (userUrl "g" "u1"))] "marker" = Option.none :=
  ⟨rfl, rfl, rfl, rfl⟩

/-- Claim C8: in every pass of either module the trace is the fetch alone,
or the fetch followed by exactly one write call; the fetch always comes
first and no pass ever issues two writes. -/
theorem claim_C8 :
    (∀ (p : ClusterParams) (r : ClusterRemote),
       (∃ u, (clusterMain p r).1 = [AtlasCall.get u])
       ∨ (∃ u w, isWrite w = true ∧ (clusterMain p r).1 = [AtlasCall.get u, w]))
  ∧ (∀ (p : UserParams) (r : UserRemote),
       (∃ u, (userMain p r).1 = [AtlasCall.get u])
       ∨ (∃ u w, isWrite w = true ∧ (userMain p r).1 = [AtlasCall.get u, w])) := by
  constructor
  · intro p r
    by_cases h1 : getIsNone r.getResp "error" = true
    · rcases clusterDispatch_calls p r
        (dictSet r.getResp "url" (PyVal.str (clusterUrl p.atlas_group_id p.name))) "present"
        with hc | ⟨w, hw, hc⟩
      · exact Or.inl ⟨_, by rw [clusterMain_present p r h1, hc]⟩
      · exact Or.inr ⟨_, w, hw, by rw [clusterMain_present p r h1, hc]⟩
    · by_cases h2 : errIs404 r.getResp = true
      · rcases clusterDispatch_calls p r
          (dictSet r.getResp "url" (PyVal.str (clusterUrl p.atlas_group_id p.name))) "absent"
          with hc | ⟨w, hw, hc⟩
        · exact Or.inl ⟨_, by rw [clusterMain_absent p r h2, hc]⟩
        · exact Or.inr ⟨_, w, hw, by rw [clusterMain_absent p r h2, hc]⟩
      · exact Or.inl ⟨_, by
          rw [clusterMain_badFetch p r (by simpa using h1) (by simpa using h2)]⟩
  · intro p r
    by_cases h1 : getIsNone r.getResp "error" = true
    · rcases userDispatch_calls p r
        (dictSet r.getResp "url" (PyVal.str (userUrl p.atlas_group_id p.user))) "present"
        with hc | ⟨w, hw, hc⟩
      · exact Or.inl ⟨_, by rw [userMain_present p r h1, hc]⟩
      · exact Or.inr ⟨_, w, hw, by rw [userMain_present p r h1, hc]⟩
    · by_cases h2 : errIs404 r.getResp = true
      · rcases userDispatch_calls p r
          (dictSet r.getResp "url" (PyVal.str (userUrl p.atlas_group_id p.user))) "absent"
          with hc | ⟨w, hw, hc⟩
        · exact Or.inl ⟨_, by rw [userMain_absent p r h2, hc]⟩
        · exact Or.inr ⟨_, w, hw, by rw [userMain_absent p r h2, hc]⟩
      · exact Or.inl ⟨_, by
          rw [userMain_badFetch p r (by simpa using h1) (by simpa using h2)]⟩

/-- Claim C1: both modules realize the convergence tables exactly:
absent/absent issues no write and exits changed false with the resource
key; absent/present issues exactly one delete and on a non-error response
exits changed true; present/absent issues exactly one create and on a
non-error response exits changed true; and for clusters present/present
issues no remote write at all and exits changed false with the fetched
cluster. -/
theorem claim_C1 :
    (∀ (p : ClusterParams) (r : ClusterRemote), p.state = "absent" → errIs404 r.getResp = true →
      clusterMain p r = ([AtlasCall.get (clusterUrl p.atlas_group_id p.name)],
        Outcome.exit (PyVal.bool false) (PyVal.str p.name)))
  ∧ (∀ (p : ClusterParams) (r : ClusterRemote), p.state = "absent" →
      getIsNone r.getResp "error" = true →
      (clusterMain p r).1 = [AtlasCall.get (clusterUrl p.atlas_group_id p.name),
        AtlasCall.delete (clusterUrl p.atlas_group_id p.name)]
      ∧ (getIsNone r.deleteResp "error" = true →
          (clusterMain p r).2 = Outcome.exit (PyVal.bool true) (PyVal.dict r.deleteResp)))
  ∧ (∀ (p : ClusterParams) (r : ClusterRemote), p.state = "present" → errIs404 r.getResp = true →
      (clusterMain p r).1 = [AtlasCall.get (clusterUrl p.atlas_group_id p.name),
        AtlasCall.post (clustersUrl p.atlas_group_id)
          (create_cluster_payload p.name p.num_shards p.replication_factor p.instance_size
            p.disk_iops p.encrypt p.backup_enabled p.region_name p.disk_size)]
      ∧ (getIsNone r.postResp "error" = true →
          (clusterMain p r).2 = Outcome.exit (PyVal.bool true)
            (PyVal.dict (dictSet r.postResp "url" (PyVal.str (clustersUrl p.atlas_group_id))))))
  ∧ (∀ (p : ClusterParams) (r : ClusterRemote), p.state = "present" →
      getIsNone r.getResp "error" = true →
      clusterMain p r = ([AtlasCall.get (clusterUrl p.atlas_group_id p.name)],
        Outcome.exit (PyVal.bool false)
          (PyVal.dict (dictSet r.getResp "url" (PyVal.str (clusterUrl p.atlas_group_id p.name))))))
  ∧ (∀ (p : UserParams) (r : UserRemote), p.state = "absent" → errIs404 r.getResp = true →
      userMain p r = ([AtlasCall.get (userUrl p.atlas_group_id p.user)],
        Outcome.exit (PyVal.bool false) (PyVal.str p.user)))
  ∧ (∀ (p : UserParams) (r : UserRemote), p.state = "absent" →
      getIsNone r.getResp "error" = true →
      (userMain p r).1 = [AtlasCall.get (userUrl p.atlas_group_id p.user),
        AtlasCall.delete (userUrl p.atlas_group_id p.user)]
      ∧ (getIsNone r.deleteResp "error" = true →
          (userMain p r).2 = Outcome.exit (PyVal.bool true)
            (PyVal.dict (dictSet r.deleteResp "url" (PyVal.str (userUrl p.atlas_group_id p.user))))))
  ∧ (∀ (p : UserParams) (r : UserRemote) (rs nrs : List PyVal),
      p.state = "present" → errIs404 r.getResp = true →
      p.roles = some rs → rs.mapM map_roles = some nrs →
      (userMain p r).1 = [AtlasCall.get (userUrl p.atlas_group_id p.user),
        AtlasCall.post (usersUrl p.atlas_group_id)
          (create_user_payload p.atlas_group_id p.user nrs p.password)]
      ∧ (getIsNone r.postResp "error" = true →
          (userMain p r).2 = Outcome.exit (PyVal.bool true)
            (PyVal.dict (dictSet r.postResp "url" (PyVal.str (usersUrl p.atlas_group_id)))))) := by
  refine ⟨?_, ?_, ?_, ?_, ?_, ?_, ?_⟩
  · intro p r hs h404
    rw [clusterMain_absent p r h404, clusterDispatch_absent_absent p r _ hs]
  · intro p r hs hp
    have hd := clusterDispatch_absent_present p r
      (dictSet r.getResp "url" (PyVal.str (clusterUrl p.atlas_group_id p.name))) hs
    constructor
    · rw [clusterMain_present p r hp, hd.1]
    · intro hdel
      rw [clusterMain_present p r hp]
      exact hd.2 (isNotNoneV_false_of_getIsNone _ _ hdel)
  · intro p r hs h404
    have hd := clusterDispatch_present_absent p r
      (dictSet r.getResp "url" (PyVal.str (clusterUrl p.atlas_group_id p.name))) hs
    constructor
    · rw [clusterMain_absent p r h404, hd.1]
    · intro hpost
      rw [clusterMain_absent p r h404]
      refine hd.2 (isNotNoneV_false_of_getIsNone _ _ ?_)
      rw [getIsNone_dictSet_ne _ _ _ _ (by decide)]
      exact hpost
  · intro p r hs hp
    rw [clusterMain_present p r hp, clusterDispatch_present_present p r _ hs]
  · intro p r hs h404
    rw [userMain_absent p r h404, userDispatch_absent_absent p r _ hs]
  · intro p r hs hp
    have hd := userDispatch_absent_present p r
      (dictSet r.getResp "url" (PyVal.str (userUrl p.atlas_group_id p.user))) hs
    constructor
    · rw [userMain_present p r hp, hd.1]
    · intro hdel
      rw [userMain_present p r hp]
      refine hd.2 ?_
      rw [getIsNone_dictSet_ne _ _ _ _ (by decide)]
      exact hdel
  · intro p r rs nrs hs h404 hroles hnorm
    have hd := userDispatch_present_absent p r
      (dictSet r.getResp "url" (PyVal.str (userUrl p.atlas_group_id p.user))) hs rs nrs
      hroles hnorm
    constructor
    · rw [userMain_absent p r h404, hd.1]
    · intro hpost
      rw [userMain_absent p r h404]
      refine hd.2 ?_
      rw [getIsNone_dictSet_ne _ _ _ _ (by decide)]
      exact hpost

/-- Witness for C1: one concrete run per convergence-table cell. -/
theorem claim_C1_witness :
    (clusterMain { cpFix with state := "absent" } crNotFound =
      ([AtlasCall.get (clusterUrl "g" "c1")], Outcome.exit (PyVal.bool false) (PyVal.str "c1")))
  ∧ ((clusterMain { cpFix with state := "absent" } crFound).1 =
      [AtlasCall.get (clusterUrl "g" "c1"), AtlasCall.delete (clusterUrl "g" "c1")]
     ∧ (clusterMain { cpFix with state := "absent" } crFound).2 =
        Outcome.exit (PyVal.bool true) (PyVal.dict []))
  ∧ ((clusterMain cpFix crNotFound).1 =
      [AtlasCall.get (clusterUrl "g" "c1"),
       AtlasCall.post (clustersUrl "g")
         (create_cluster_payload "c1" Option.none Option.none Option.none Option.none
           Option.none Option.none Option.none Option.none)]
     ∧ (clusterMain cpFix crNotFound).2 =
        Outcome.exit (PyVal.bool true) (PyVal.dict [("url", PyVal.str (clustersUrl "g"))]))
  ∧ (clusterMain cpFix crFound =
      ([AtlasCall.get (clusterUrl "g" "c1")],
       Outcome.exit (PyVal.bool false)
         (PyVal.dict [("ok", PyVal.bool true), ("url", PyVal.str (clusterUrl "g" "c1"))])))
  ∧ (userMain { upFix with state := "absent" } urNotFound =
      ([AtlasCall.get (userUrl "g" "u1")], Outcome.exit (PyVal.bool false) (PyVal.str "u1")))
  ∧ ((userMain { upFix with state := "absent" } urFoundRead).1 =
      [AtlasCall.get (userUrl "g" "u1"), AtlasCall.delete (userUrl "g" "u1")]
     ∧ (userMain { upFix with state := "absent" } urFoundRead).2 =
        Outcome.exit (PyVal.bool true) (PyVal.dict [("url", PyVal.str (userUrl "g" "u1"))]))
  ∧ ((userMain upFix urNotFound).1 =
      [AtlasCall.get (userUrl "g" "u1"),
       AtlasCall.post (usersUrl "g")
         (create_user_payload "g" "u1"
           [PyVal.dict [("roleName", PyVal.str "read"), ("databaseName", PyVal.str "admin")]]
           Option.none)]
     ∧ (userMain upFix urNotFound).2 =
        Outcome.exit (PyVal.bool true) (PyVal.dict [("url", PyVal.str (usersUrl "g"))])) := by
  refine ⟨?_, ⟨?_, ?_⟩, ⟨?_, ?_⟩, ?_, ?_, ⟨?_, ?_⟩, ⟨?_, ?_⟩⟩
  · exact claim_C1.1 _ _ rfl rfl
  · exact (claim_C1.2.1 { cpFix with state := "absent" } crFound rfl rfl).1
  · exact (claim_C1.2.1 { cpFix with state := "absent" } crFound rfl rfl).2 rfl
  · exact (claim_C1.2.2.1 cpFix crNotFound rfl rfl).1
  · exact (claim_C1.2.2.1 cpFix crNotFound rfl rfl).2 rfl
  · exact claim_C1.2.2.2.1 _ _ rfl rfl
  · exact claim_C1.2.2.2.2.1 _ _ rfl rfl
  · exact (claim_C1.2.2.2.2.2.1 { upFix with state := "absent" } urFoundRead rfl rfl).1
  · exact (claim_C1.2.2.2.2.2.1 { upFix with state := "absent" } urFoundRead rfl rfl).2 rfl
  · exact (claim_C1.2.2.2.2.2.2 upFix urNotFound [PyVal.str "read"]
      [PyVal.dict [("roleName", PyVal.str "read"), ("databaseName", PyVal.str "admin")]]
      rfl rfl rfl rfl).1
  · exact (claim_C1.2.2.2.2.2.2 upFix urNotFound [PyVal.str "read"]
      [PyVal.dict [("roleName", PyVal.str "read"), ("databaseName", PyVal.str "admin")]]
      rfl rfl rfl rfl).2 rfl
